import Mathlib

/-!
Verification model of the cache-aside LLM request orchestration layer in
`src/app.py` (FastAPI service `llm-gpu-api`).

Shallow embedding conventions:
* Python floats are modelled as rationals (`ℚ`): the service performs no
  floating-point arithmetic on the generation parameters — they are only
  validated, passed through to the engine, and serialized for cache keys.
* Python number rendering (`json.dumps` of ints/floats) is modelled by an
  injective rendering (`fmtInt`, `fmtRat`) whose alphabet — digits, `-`, `/` —
  shares the properties relied on by the key-derivation proofs with Python's
  repr: injectivity and absence of the JSON delimiter characters.
* `hashlib.md5(...).hexdigest()` is modelled as an abstract digest (`md5hex`);
  the key-distinctness claim is stated about the pre-hash encoding
  (`cache_data`) under the spec's collision-free-digest model, so nothing
  proved depends on the digest's concrete behaviour.
* Exceptions are modelled with `Except`; `BackgroundTasks.add_task` is
  modelled by returning the list of scheduled tasks next to the response.
-/

namespace LLMApi

/-- A JSON scalar value as it appears in the cache-key parameter dict
(`cache_params` in `generate_text`): a bool, an int, or a float (as `ℚ`). -/
inductive JVal where
  | jbool (b : Bool)
  | jint (n : Int)
  | jnum (q : ℚ)
deriving DecidableEq

/-- Decimal rendering of a natural number (Python `str` / `json.dumps`). -/
def fmtNat (n : Nat) : String :=
  if n = 0 then "0" else ⟨((Nat.digits 10 n).map Nat.digitChar).reverse⟩

/-- Decimal rendering of an integer (Python `str` / `json.dumps`). -/
def fmtInt : Int → String
  | .ofNat n => fmtNat n
  | .negSucc n => "-" ++ fmtNat (n + 1)

/-- Injective rendering of a rational, standing in for Python's float repr
(which is injective on floats); see the module docstring. -/
def fmtRat (q : ℚ) : String := fmtInt q.num ++ "/" ++ fmtNat q.den

/-- JSON rendering of a boolean (`json.dumps(True) = "true"`). -/
def boolStr (b : Bool) : String := if b then "true" else "false"

/-- `json.dumps` of a single scalar value. -/
def JVal.dumps : JVal → String
  | .jbool b => boolStr b
  | .jint n => fmtInt n
  | .jnum q => fmtRat q

/-- Lexicographic (code-point) order on character lists: the order Python
uses to compare the key strings under `json.dumps(..., sort_keys=True)`. -/
def leChars : List Char → List Char → Bool
  | [], _ => true
  | _ :: _, [] => false
  | a :: as, b :: bs => if a < b then true else if b < a then false else leChars as bs

/-- Key order on dict entries: compare the key strings code-point-wise. -/
def keyLe (a b : String × JVal) : Prop := leChars a.1.data b.1.data = true

instance : DecidableRel keyLe := fun a b => by unfold keyLe; infer_instance

/-- The `sort_keys=True` reordering of a dict's entries. -/
def sortKeys (l : List (String × JVal)) : List (String × JVal) :=
  List.insertionSort keyLe l

/-- One `"key": value` fragment of the JSON object serialization. -/
def dumpEntry (kv : String × JVal) : String :=
  "\"" ++ kv.1 ++ "\": " ++ kv.2.dumps

/-- Comma-join of serialized entries (Python's default `", "` separator). -/
def joinEntries : List (String × JVal) → String
  | [] => ""
  | [kv] => dumpEntry kv
  | kv :: rest => dumpEntry kv ++ ", " ++ joinEntries rest

/-- `json.dumps(params, sort_keys=True)` for a flat dict of scalars
(string escaping is a no-op here: the only keys serialized are the four
fixed parameter names and no value is a string). -/
def json_dumps_sorted (params : List (String × JVal)) : String :=
  "\x7b" ++ joinEntries (sortKeys params) ++ "\x7d"

/-- The pre-hash encoding `f"[prompt]:[json.dumps(params, sort_keys=True)]"`
built by `get_cache_key` before digesting. -/
def cache_data (prompt : String) (params : List (String × JVal)) : String :=
  prompt ++ ":" ++ json_dumps_sorted params

/-- Stand-in for `hashlib.md5(...).hexdigest()`: an abstract digest.  Claims
about key distinctness are stated about `cache_data` under the spec's
collision-free-digest model, so no theorem depends on this definition's
behaviour beyond it being a function. -/
def md5hex (s : String) : String := s

/-- `get_cache_key` (src/app.py lines 116–118): namespaced digest of the
prompt and the sorted-key serialization of the parameter dict. -/
def get_cache_key (prompt : String) (params : List (String × JVal)) : String :=
  "llm:" ++ md5hex (cache_data prompt params)

/-- The shape shared by `GenerationResponse` (the pydantic response model)
and the dict stored in the cache: `generate_text` stores exactly the six
response fields and rebuilds `GenerationResponse(**cached)` from them. -/
structure GenerationResponse where
  prompt : String
  generated_text : String
  processing_time : ℚ
  device_used : String
  cached : Bool
  tokens_generated : Nat
deriving DecidableEq

/-- A value held by the key-value store under some key.  `malformed` models a
stored string that `json.loads` rejects; `entry p` models the serialization
`json.dumps(p)` of a well-formed response payload. -/
inductive CacheValue where
  | malformed
  | entry (p : GenerationResponse)
deriving DecidableEq

/-- The external key-value store (`redis_client`): `get` and `setex` each
either return normally or raise (`Except.error` with the exception text).
The claims never read a key back after writing it, so `setex` abstracts the
store mutation away and models only the raise/return outcome. -/
structure Store where
  get : String → Except String (Option CacheValue)
  setex : String → Nat → CacheValue → Except String Unit

/-- `get_cached_response` (src/app.py lines 127–135): with no client
configured, or when `redis_client.get`/`json.loads` raises (caught, logged
as a warning), or when the key is absent, return `None`; otherwise return
the parsed payload. -/
def get_cached_response (client : Option Store) (key : String) :
    Option GenerationResponse :=
  match client with
  | none => none
  | some st =>
    match st.get key with
    | .error _ => none
    | .ok none => none
    | .ok (some .malformed) => none
    | .ok (some (.entry p)) => some p

/-- `cache_response` (src/app.py lines 120–125): with no client configured
the write is skipped; a raising `setex` is caught and logged as a warning.
The `Except` result records whether an exception escapes to the caller —
the catch-all means it never does (`cache_response_ok`). -/
def cache_response (client : Option Store) (key : String)
    (response : GenerationResponse) (ttl : Nat) : Except String Unit :=
  match client with
  | none => .ok ()
  | some st =>
    match st.setex key ttl (CacheValue.entry response) with
    | .ok _ => .ok ()
    | .error _ => .ok ()

/-- The validated request body of `POST /generate` (pydantic model
`GenerationRequest`, src/app.py lines 30–36); floats as `ℚ`. -/
structure GenerationRequest where
  prompt : String
  max_new_tokens : Int
  temperature : ℚ
  top_p : ℚ
  do_sample : Bool
  stream : Bool
deriving DecidableEq

/-- A raw `POST /generate` body before boundary validation: optional fields
are absent (`none`) or supplied. -/
structure RawRequest where
  prompt : String
  max_new_tokens : Option Int := none
  temperature : Option ℚ := none
  top_p : Option ℚ := none
  do_sample : Option Bool := none
  stream : Option Bool := none

/-- The field constraints declared on the pydantic model: prompt length in
1..2000, `max_new_tokens` in 1..500, `temperature` in 0.1..2.0, `top_p` in
0.1..1.0 (all bounds inclusive: `ge`/`le`/`min_length`/`max_length`). -/
def requestValid (prompt : String) (m : Int) (t p : ℚ) : Prop :=
  1 ≤ prompt.length ∧ prompt.length ≤ 2000 ∧
  1 ≤ m ∧ m ≤ 500 ∧
  mkRat 1 10 ≤ t ∧ t ≤ 2 ∧
  mkRat 1 10 ≤ p ∧ p ≤ 1

instance (prompt : String) (m : Int) (t p : ℚ) :
    Decidable (requestValid prompt m t p) :=
  show Decidable (1 ≤ prompt.length ∧ prompt.length ≤ 2000 ∧
    1 ≤ m ∧ m ≤ 500 ∧ mkRat 1 10 ≤ t ∧ t ≤ 2 ∧
    mkRat 1 10 ≤ p ∧ p ≤ 1) from inferInstance

/-- Boundary validation of a raw body (pydantic under FastAPI): defaults
are filled in for absent fields, then the field constraints are checked;
an out-of-range body is rejected (`none`) before the handler runs. -/
def validateRequest (raw : RawRequest) : Option GenerationRequest :=
  let m := raw.max_new_tokens.getD 100
  let t := raw.temperature.getD (mkRat 7 10)
  let p := raw.top_p.getD (mkRat 9 10)
  let d := raw.do_sample.getD true
  let s := raw.stream.getD false
  if requestValid raw.prompt m t p then
    some ⟨raw.prompt, m, t, p, d, s⟩
  else
    none

/-- The keyword arguments passed to `text_generator` on a cache miss
(`gen_args`, src/app.py lines 214–221). -/
structure GenArgs where
  max_new_tokens : Int
  temperature : ℚ
  top_p : ℚ
  do_sample : Bool
  pad_token_id : Int
  return_full_text : Bool
deriving DecidableEq

/-- An HTTP error response (`HTTPException(status_code=..., detail=...)`). -/
structure HTTPException where
  status_code : Nat
  detail : String
deriving DecidableEq

/-- A task handed to `background_tasks.add_task`: the only one ever
scheduled is `cache_response(cache_key, response, 3600)`. -/
inductive BackgroundTask where
  | cache_write (key : String) (response : GenerationResponse) (ttl : Nat)
deriving DecidableEq

/-- What `generate_text` hands back to FastAPI: the response or raised
`HTTPException`, plus the background tasks scheduled on the way. -/
structure GenTextResult where
  result : Except HTTPException GenerationResponse
  background : List BackgroundTask

/-- The process-wide collaborator state read by `generate_text`:
whether `model`/`tokenizer` are non-`None`, the tokenizer's
`eos_token_id` and `encode`-length function, the generation pipeline
(`text_generator`, returning `result[0]["generated_text"]` or raising with
a message), the optional store client, and `DEVICE`. -/
structure Sys where
  modelLoaded : Bool
  tokenizerLoaded : Bool
  eos_token_id : Int
  text_generator : String → GenArgs → Except String String
  encode_len : String → Nat
  redis_client : Option Store
  device : String

/-- The parameter dict built at src/app.py lines 198–203, in its source
construction order, as a function of the four field values. -/
def cache_params (m : Int) (t p : ℚ) (d : Bool) : List (String × JVal) :=
  [("max_new_tokens", JVal.jint m),
   ("temperature", JVal.jnum t),
   ("top_p", JVal.jnum p),
   ("do_sample", JVal.jbool d)]

/-- The parameter dict of a request (`cache_params` at src/app.py 198–203). -/
def cacheParamsOf (r : GenerationRequest) : List (String × JVal) :=
  cache_params r.max_new_tokens r.temperature r.top_p r.do_sample

/-- Python's substring test `needle in hay` on character lists. -/
def containsSub (needle : List Char) : List Char → Bool
  | [] => needle.isPrefixOf []
  | c :: t => needle.isPrefixOf (c :: t) || containsSub needle t

/-- The out-of-memory test `"out of memory" in str(e).lower()`
(src/app.py line 242). -/
def isOOM (msg : String) : Bool :=
  containsSub "out of memory".data (msg.data.map Char.toLower)

/-- The `gen_args` dict built on a cache miss (src/app.py lines 214–221):
the request's raw parameters plus the tokenizer's eos id and
`return_full_text=False`. -/
def genArgsOf (sys : Sys) (request : GenerationRequest) : GenArgs :=
  { max_new_tokens := request.max_new_tokens,
    temperature := request.temperature,
    top_p := request.top_p,
    do_sample := request.do_sample,
    pad_token_id := sys.eos_token_id,
    return_full_text := false }

/-- `generate_text` (src/app.py lines 191–244).  `elapsed` is the value of
`time.time() - start` at the single point the handler samples the clock
again (on a cache hit, or after a successful generation); at most one such
sample occurs per request. -/
def generate_text (sys : Sys) (request : GenerationRequest) (elapsed : ℚ) :
    GenTextResult :=
  if sys.modelLoaded = false ∨ sys.tokenizerLoaded = false then
    ⟨.error ⟨503, "Model not loaded"⟩, []⟩
  else
    let cache_params := cacheParamsOf request
    let cache_key := get_cache_key request.prompt cache_params
    match get_cached_response sys.redis_client cache_key with
    | some cached =>
        ⟨.ok { cached with processing_time := elapsed, cached := true }, []⟩
    | none =>
        let gen_args : GenArgs := genArgsOf sys request
        match sys.text_generator request.prompt gen_args with
        | .ok text =>
            let tokens := sys.encode_len text
            let response : GenerationResponse :=
              { prompt := request.prompt,
                generated_text := text,
                processing_time := elapsed,
                device_used := sys.device,
                cached := false,
                tokens_generated := tokens }
            ⟨.ok response, [BackgroundTask.cache_write cache_key response 3600]⟩
        | .error e =>
            if isOOM e then
              ⟨.error ⟨507, "GPU memory insufficient"⟩, []⟩
            else
              ⟨.error ⟨500, "Generation failed: " ++ e⟩, []⟩

/-- A store on which every operation raises — the spec's "store forced to
fail every operation" simulation. -/
def failingStore (msg : String) : Store :=
  ⟨fun _ => .error msg, fun _ _ _ => .error msg⟩

/-- A concrete stored payload (with deliberately stale `processing_time`
and `cached` values) used to exercise the cache-hit path. -/
def samplePayload : GenerationResponse :=
  { prompt := "p", generated_text := "g", processing_time := 99,
    device_used := "cpu", cached := false, tokens_generated := 7 }

/-- A concrete request body. -/
def sampleRequest : GenerationRequest :=
  { prompt := "hello", max_new_tokens := 100, temperature := mkRat 7 10,
    top_p := mkRat 9 10, do_sample := true, stream := false }

/-- A ready system whose store returns `samplePayload` for every key. -/
def sampleSysHit : Sys :=
  { modelLoaded := true, tokenizerLoaded := true, eos_token_id := 50256,
    text_generator := fun _ _ => .ok "t", encode_len := fun s => s.length,
    redis_client := some ⟨fun _ => .ok (some (.entry samplePayload)),
                          fun _ _ _ => .ok ()⟩,
    device := "cpu" }

/-- A ready system with a store that fails every operation. -/
def sampleSysFail : Sys :=
  { sampleSysHit with redis_client := some (failingStore "redis down") }

/-- A ready system with no store configured (cache-disabled mode). -/
def sampleSysNoCache : Sys :=
  { sampleSysHit with redis_client := none }

/-- A ready cache-less system whose engine raises an out-of-memory error
in mixed casing. -/
def sampleSysOOM : Sys :=
  { sampleSysNoCache with
      text_generator := fun _ _ => .error "CUDA Out Of Memory: allocation" }

/-- A ready cache-less system whose engine raises a generic error. -/
def sampleSysErr : Sys :=
  { sampleSysNoCache with text_generator := fun _ _ => .error "kaboom" }

/-- A system whose model handle is absent but whose store would hit. -/
def sampleSysUnloaded : Sys :=
  { sampleSysHit with modelLoaded := false }

/-- Strict key order on dict entries: keys strictly ordered.  Used to show
the sorted-key serialization of a dict is unique. -/
def keyLt (a b : String × JVal) : Prop := keyLe a b ∧ a.1 ≠ b.1

/-- The character-list view of the tail of the serialized parameter dict,
from the `top_p` entry on (innermost segment). -/
def seg3 (p : ℚ) : List Char :=
  "\"".data ++ ("top_p".data ++ ("\": ".data ++
    ((fmtRat p).data ++ "\x7d".data)))

/-- Serialized dict tail from the `temperature` entry on. -/
def seg2 (t p : ℚ) : List Char :=
  "\"".data ++ ("temperature".data ++ ("\": ".data ++
    ((fmtRat t).data ++ (", ".data ++ seg3 p))))

/-- Serialized dict tail from the `max_new_tokens` entry on. -/
def seg1 (m : Int) (t p : ℚ) : List Char :=
  "\"".data ++ ("max_new_tokens".data ++ ("\": ".data ++
    ((fmtInt m).data ++ (", ".data ++ seg2 t p))))

/-- The serialized parameter dict (everything after the opening brace),
as a character list. -/
def payloadChars (m : Int) (t p : ℚ) (d : Bool) : List Char :=
  "\"".data ++ ("do_sample".data ++ ("\": ".data ++
    ((boolStr d).data ++ (", ".data ++ seg1 m t p))))

/-! ## Claim theorems -/

/-- C1: whenever `/generate` serves a stored cache entry, the outcome has
`cached = true` and `processing_time` equal to the elapsed time since the
request was received, regardless of the stored `cached`/`processing_time`
values; all remaining fields come from storage unchanged. -/
theorem cache_hit_recomputes_request_local_fields
    (sys : Sys) (request : GenerationRequest) (elapsed : ℚ)
    (p : GenerationResponse)
    (hm : sys.modelLoaded = true) (ht : sys.tokenizerLoaded = true)
    (hhit : get_cached_response sys.redis_client
      (get_cache_key request.prompt (cacheParamsOf request)) = some p) :
    generate_text sys request elapsed =
      ⟨.ok { prompt := p.prompt, generated_text := p.generated_text,
             processing_time := elapsed, device_used := p.device_used,
             cached := true, tokens_generated := p.tokens_generated }, []⟩ := by
  unfold generate_text
  simp [hm, ht, hhit]

/-- Witness for C1: a stored payload with stale `processing_time = 99` and
`cached = false` is served with `processing_time = 5` and `cached = true`,
its other fields unchanged. -/
theorem cache_hit_witness :
    generate_text sampleSysHit sampleRequest 5 =
      ⟨.ok ⟨"p", "g", 5, "cpu", true, 7⟩, []⟩ :=
  cache_hit_recomputes_request_local_fields sampleSysHit sampleRequest 5
    samplePayload rfl rfl rfl

/-- C2: the Cache Gateway never raises — `get` returns absent when the
store raises or the stored payload is malformed, `put` swallows store
failures, and with the store failing every operation a valid request with
a working engine still succeeds with `cached = false`. -/
theorem cache_gateway_absorbs_store_failures :
    (∀ (st : Store) (key err : String), st.get key = .error err →
      get_cached_response (some st) key = none) ∧
    (∀ (st : Store) (key : String), st.get key = .ok (some .malformed) →
      get_cached_response (some st) key = none) ∧
    (∀ (client : Option Store) (key : String) (resp : GenerationResponse)
      (ttl : Nat), cache_response client key resp ttl = .ok ()) ∧
    (∀ (msg : String) (sys : Sys) (req : GenerationRequest) (elapsed : ℚ)
      (text : String),
      sys.redis_client = some (failingStore msg) →
      sys.modelLoaded = true → sys.tokenizerLoaded = true →
      sys.text_generator req.prompt (genArgsOf sys req) = .ok text →
      generate_text sys req elapsed =
        ⟨.ok ⟨req.prompt, text, elapsed, sys.device, false, sys.encode_len text⟩,
         [.cache_write (get_cache_key req.prompt (cacheParamsOf req))
            ⟨req.prompt, text, elapsed, sys.device, false, sys.encode_len text⟩
            3600]⟩) := by
  refine ⟨?_, ?_, ?_, ?_⟩
  · intro st key err h; simp [get_cached_response, h]
  · intro st key h; simp [get_cached_response, h]
  · intro client key resp ttl
    cases client with
    | none => rfl
    | some st => cases h : st.setex key ttl (.entry resp) <;>
        simp [cache_response, h]
  · intro msg sys req elapsed text hc hm ht hgen
    have hmiss : get_cached_response sys.redis_client
        (get_cache_key req.prompt (cacheParamsOf req)) = none := by
      rw [hc]; rfl
    unfold generate_text
    rw [if_neg (by simp [hm, ht])]
    simp [hmiss, hgen]

/-- Witness for C2: with an always-failing store, `get` is absent, `put`
returns normally, and a full request succeeds uncached. -/
theorem cache_gateway_witness :
    get_cached_response (some (failingStore "down")) "k" = none ∧
    cache_response (some (failingStore "down")) "k" samplePayload 3600 =
      .ok () ∧
    generate_text sampleSysFail sampleRequest 3 =
      ⟨.ok ⟨"hello", "t", 3, "cpu", false, 1⟩,
       [.cache_write
          (get_cache_key sampleRequest.prompt (cacheParamsOf sampleRequest))
          ⟨"hello", "t", 3, "cpu", false, 1⟩ 3600]⟩ :=
  ⟨cache_gateway_absorbs_store_failures.1 (failingStore "down") "k" "down" rfl,
   cache_gateway_absorbs_store_failures.2.2.1 _ "k" samplePayload 3600,
   cache_gateway_absorbs_store_failures.2.2.2 "redis down" sampleSysFail
     sampleRequest 3 "t" rfl rfl rfl rfl⟩

/-- C3: error outcomes are classified as 503 when the engine is not
initialized, 507 when the failure message contains "out of memory" in any
casing, and 500 with the original failure text otherwise. -/
theorem generate_text_error_classification
    (sys : Sys) (req : GenerationRequest) (elapsed : ℚ) :
    ((sys.modelLoaded = false ∨ sys.tokenizerLoaded = false) →
      generate_text sys req elapsed = ⟨.error ⟨503, "Model not loaded"⟩, []⟩) ∧
    (∀ e : String, sys.modelLoaded = true → sys.tokenizerLoaded = true →
      get_cached_response sys.redis_client
        (get_cache_key req.prompt (cacheParamsOf req)) = none →
      sys.text_generator req.prompt (genArgsOf sys req) = .error e →
      ((isOOM e = true →
         generate_text sys req elapsed =
           ⟨.error ⟨507, "GPU memory insufficient"⟩, []⟩) ∧
       (isOOM e = false →
         generate_text sys req elapsed =
           ⟨.error ⟨500, "Generation failed: " ++ e⟩, []⟩))) := by
  constructor
  · intro h; unfold generate_text; rw [if_pos h]
  · intro e hm ht hmiss hgen
    constructor <;> intro hoom <;> unfold generate_text <;>
      rw [if_neg (by simp [hm, ht])] <;> simp [hmiss, hgen, hoom]

/-- Witness for C3: an unloaded model gives 503, a mixed-casing
"CUDA Out Of Memory" failure gives 507, and "kaboom" gives 500 with the
original text. -/
theorem error_classification_witness :
    generate_text sampleSysUnloaded sampleRequest 1 =
      ⟨.error ⟨503, "Model not loaded"⟩, []⟩ ∧
    generate_text sampleSysOOM sampleRequest 1 =
      ⟨.error ⟨507, "GPU memory insufficient"⟩, []⟩ ∧
    generate_text sampleSysErr sampleRequest 1 =
      ⟨.error ⟨500, "Generation failed: kaboom"⟩, []⟩ :=
  ⟨(generate_text_error_classification sampleSysUnloaded sampleRequest 1).1
     (Or.inl rfl),
   ((generate_text_error_classification sampleSysOOM sampleRequest 1).2
     "CUDA Out Of Memory: allocation" rfl rfl rfl rfl).1 (by decide),
   ((generate_text_error_classification sampleSysErr sampleRequest 1).2
     "kaboom" rfl rfl rfl rfl).2 (by decide)⟩

/-- C6: on the failure path no cache write is scheduled, and a cache write
is produced only after a successful (uncached) generation. -/
theorem no_cache_write_without_success
    (sys : Sys) (req : GenerationRequest) (elapsed : ℚ) :
    (∀ e : String, sys.modelLoaded = true → sys.tokenizerLoaded = true →
      get_cached_response sys.redis_client
        (get_cache_key req.prompt (cacheParamsOf req)) = none →
      sys.text_generator req.prompt (genArgsOf sys req) = .error e →
      (generate_text sys req elapsed).background = []) ∧
    ((generate_text sys req elapsed).background ≠ [] →
      ∃ r, (generate_text sys req elapsed).result = .ok r ∧
        r.cached = false) := by
  constructor
  · intro e hm ht hmiss hgen
    unfold generate_text
    rw [if_neg (by simp [hm, ht])]
    cases hoom : isOOM e <;> simp [hmiss, hgen, hoom]
  · intro hbg
    unfold generate_text at hbg ⊢
    by_cases h : sys.modelLoaded = false ∨ sys.tokenizerLoaded = false
    · rw [if_pos h] at hbg; simp at hbg
    · rw [if_neg h] at hbg ⊢
      cases hc : get_cached_response sys.redis_client
          (get_cache_key req.prompt (cacheParamsOf req)) with
      | some p => simp [hc] at hbg
      | none =>
        cases hg : sys.text_generator req.prompt (genArgsOf sys req) with
        | error e => cases hoom : isOOM e <;> simp [hc, hg, hoom] at hbg
        | ok text =>
          exact ⟨⟨req.prompt, text, elapsed, sys.device, false,
                   sys.encode_len text⟩, by simp [hc, hg], rfl⟩

/-- Witness for C6: a failing engine schedules no write; a successful miss
has a nonempty task list and an uncached success result. -/
theorem no_cache_write_witness :
    (generate_text sampleSysErr sampleRequest 1).background = [] ∧
    ∃ r, (generate_text sampleSysNoCache sampleRequest 1).result = .ok r ∧
      r.cached = false :=
  ⟨(no_cache_write_without_success sampleSysErr sampleRequest 1).1
     "kaboom" rfl rfl rfl rfl,
   (no_cache_write_without_success sampleSysNoCache sampleRequest 1).2
     (by
       have h : (generate_text sampleSysNoCache sampleRequest 1).background =
         [.cache_write
            (get_cache_key sampleRequest.prompt (cacheParamsOf sampleRequest))
            ⟨"hello", "t", 1, "cpu", false, 1⟩ 3600] := rfl
       rw [h]; exact List.cons_ne_nil _ _)⟩

/-- C7: on a successful cache miss exactly one cache write of the assembled
result is scheduled, keyed by the derived key with TTL 3600, and the
response does not depend on the store's write behaviour. -/
theorem miss_schedules_single_write_behind
    (sys : Sys) (req : GenerationRequest) (elapsed : ℚ) (text : String)
    (hm : sys.modelLoaded = true) (ht : sys.tokenizerLoaded = true)
    (hmiss : get_cached_response sys.redis_client
      (get_cache_key req.prompt (cacheParamsOf req)) = none)
    (hgen : sys.text_generator req.prompt (genArgsOf sys req) = .ok text) :
    generate_text sys req elapsed =
      ⟨.ok ⟨req.prompt, text, elapsed, sys.device, false, sys.encode_len text⟩,
       [.cache_write (get_cache_key req.prompt (cacheParamsOf req))
          ⟨req.prompt, text, elapsed, sys.device, false, sys.encode_len text⟩
          3600]⟩ ∧
    ∀ (g : String → Except String (Option CacheValue))
      (s₁ s₂ : String → Nat → CacheValue → Except String Unit),
      generate_text { sys with redis_client := some ⟨g, s₁⟩ } req elapsed =
        generate_text { sys with redis_client := some ⟨g, s₂⟩ } req elapsed := by
  constructor
  · unfold generate_text
    rw [if_neg (by simp [hm, ht])]
    simp [hmiss, hgen]
  · intro g s₁ s₂; rfl

/-- Witness for C7: a concrete miss schedules the single 3600-second write
of the assembled response. -/
theorem miss_write_behind_witness :
    generate_text sampleSysNoCache sampleRequest 1 =
      ⟨.ok ⟨"hello", "t", 1, "cpu", false, 1⟩,
       [.cache_write
          (get_cache_key sampleRequest.prompt (cacheParamsOf sampleRequest))
          ⟨"hello", "t", 1, "cpu", false, 1⟩ 3600]⟩ :=
  (miss_schedules_single_write_behind sampleSysNoCache sampleRequest 1 "t"
    rfl rfl rfl rfl).1

/-- C9: the `stream` field influences neither the derived cache key nor the
outcome of `generate_text` (noninterference of `stream`). -/
theorem stream_noninterference
    (sys : Sys) (req : GenerationRequest) (elapsed : ℚ) (b b' : Bool) :
    get_cache_key ({ req with stream := b }).prompt
        (cacheParamsOf { req with stream := b }) =
      get_cache_key req.prompt (cacheParamsOf req) ∧
    generate_text sys { req with stream := b } elapsed =
      generate_text sys { req with stream := b' } elapsed :=
  ⟨rfl, rfl⟩

/-- C10: with the model handle absent, every request fails 503 and the
outcome is the same for every store state — no stored entry is ever
served while the engine is unready. -/
theorem unready_engine_503_skips_cache
    (sys : Sys) (req : GenerationRequest) (elapsed : ℚ)
    (h : sys.modelLoaded = false ∨ sys.tokenizerLoaded = false) :
    generate_text sys req elapsed = ⟨.error ⟨503, "Model not loaded"⟩, []⟩ ∧
    ∀ client' : Option Store,
      generate_text { sys with redis_client := client' } req elapsed =
        ⟨.error ⟨503, "Model not loaded"⟩, []⟩ := by
  have gen : ∀ (s : Sys), (s.modelLoaded = false ∨ s.tokenizerLoaded = false) →
      generate_text s req elapsed = ⟨.error ⟨503, "Model not loaded"⟩, []⟩ := by
    intro s hs; unfold generate_text; rw [if_pos hs]
  exact ⟨gen sys h, fun client' => gen _ h⟩

/-- Witness for C10: an unloaded system whose store holds a matching entry
still returns 503, with or without the store. -/
theorem unready_engine_witness :
    generate_text sampleSysUnloaded sampleRequest 2 =
      ⟨.error ⟨503, "Model not loaded"⟩, []⟩ ∧
    generate_text { sampleSysUnloaded with redis_client := none }
        sampleRequest 2 =
      ⟨.error ⟨503, "Model not loaded"⟩, []⟩ :=
  ⟨(unready_engine_503_skips_cache sampleSysUnloaded sampleRequest 2
      (Or.inl rfl)).1,
   (unready_engine_503_skips_cache sampleSysUnloaded sampleRequest 2
      (Or.inl rfl)).2 none⟩

/-- C8: boundary validation — any accepted request satisfies the declared
bounds, absent fields receive the declared defaults, and the empty prompt,
a 2001-character prompt and `max_new_tokens = 501` are all rejected before
the handler runs. -/
theorem boundary_validation_bounds_and_defaults :
    (∀ (raw : RawRequest) (r : GenerationRequest), validateRequest raw = some r →
      (requestValid r.prompt r.max_new_tokens r.temperature r.top_p ∧
       r.prompt = raw.prompt ∧
       (raw.max_new_tokens = none → r.max_new_tokens = 100) ∧
       (raw.temperature = none → r.temperature = mkRat 7 10) ∧
       (raw.top_p = none → r.top_p = mkRat 9 10) ∧
       (raw.do_sample = none → r.do_sample = true) ∧
       (raw.stream = none → r.stream = false))) ∧
    (∀ raw : RawRequest, raw.prompt = "" → validateRequest raw = none) ∧
    (∀ raw : RawRequest, raw.prompt.length = 2001 → validateRequest raw = none) ∧
    (∀ raw : RawRequest, raw.max_new_tokens = some 501 →
      validateRequest raw = none) := by
  refine ⟨?_, ?_, ?_, ?_⟩
  · intro raw r h
    simp only [validateRequest] at h
    split at h
    case isTrue hv =>
      cases h
      exact ⟨hv, rfl, fun hn => by simp [hn], fun hn => by simp [hn],
             fun hn => by simp [hn], fun hn => by simp [hn],
             fun hn => by simp [hn]⟩
    case isFalse => cases h
  · intro raw h
    simp [validateRequest, requestValid, h]
  · intro raw h
    simp [validateRequest, requestValid, h]
  · intro raw h
    simp [validateRequest, requestValid, h]

/-- Witness for C8: a minimal body is accepted with all defaults filled in
and in range; the three out-of-range bodies are rejected. -/
theorem boundary_validation_witness :
    validateRequest ⟨"hi", none, none, none, none, none⟩ =
      some ⟨"hi", 100, mkRat 7 10, mkRat 9 10, true, false⟩ ∧
    requestValid "hi" 100 (mkRat 7 10) (mkRat 9 10) ∧
    validateRequest ⟨"", some 100, none, none, none, none⟩ = none ∧
    validateRequest ⟨⟨List.replicate 2001 'a'⟩, none, none, none, none, none⟩ =
      none ∧
    validateRequest ⟨"hi", some 501, none, none, none, none⟩ = none :=
  ⟨by decide,
   (boundary_validation_bounds_and_defaults.1 ⟨"hi", none, none, none, none,
      none⟩ ⟨"hi", 100, mkRat 7 10, mkRat 9 10, true, false⟩ (by decide)).1,
   boundary_validation_bounds_and_defaults.2.1 _ rfl,
   boundary_validation_bounds_and_defaults.2.2.1
     ⟨⟨List.replicate 2001 'a'⟩, none, none, none, none, none⟩
     (List.length_replicate 2001 'a'),
   boundary_validation_bounds_and_defaults.2.2.2 _ rfl⟩

/-! ## Order-independence of the cache key (C4) -/

/-- The code-point order on character lists is total. -/
theorem leChars_total (a : List Char) :
    ∀ b, leChars a b = true ∨ leChars b a = true := by
  induction a with
  | nil => intro b; left; rfl
  | cons x xs ih =>
    intro b
    cases b with
    | nil => right; rfl
    | cons y ys =>
      rcases lt_trichotomy x y with h | rfl | h
      · left; simp [leChars, h]
      · rcases ih ys with h' | h' <;> [left; right] <;>
          simp [leChars, lt_irrefl, h']
      · right; simp [leChars, h]

/-- The code-point order on character lists is transitive. -/
theorem leChars_trans :
    ∀ (a b c : List Char), leChars a b = true → leChars b c = true →
      leChars a c = true := by
  intro a
  induction a with
  | nil => intro b c _ _; rfl
  | cons x xs ih =>
    intro b c h1 h2
    cases b with
    | nil => simp [leChars] at h1
    | cons y ys =>
      cases c with
      | nil => simp [leChars] at h2
      | cons z zs =>
        rcases lt_trichotomy x y with hxy | rfl | hyx
        · rcases lt_trichotomy y z with hyz | rfl | hzy
          · simp [leChars, lt_trans hxy hyz]
          · simp [leChars, hxy]
          · simp [leChars, lt_asymm hzy, hzy] at h2
        · simp [leChars, lt_irrefl] at h1
          rcases lt_trichotomy x z with hxz | rfl | hzx
          · simp [leChars, hxz]
          · simp [leChars, lt_irrefl] at h2 ⊢
            exact ih ys zs h1 h2
          · simp [leChars, lt_asymm hzx, hzx] at h2
        · simp [leChars, lt_asymm hyx, hyx] at h1

/-- The code-point order on character lists is antisymmetric. -/
theorem leChars_antisymm :
    ∀ (a b : List Char), leChars a b = true → leChars b a = true → a = b := by
  intro a
  induction a with
  | nil =>
    intro b h1 h2
    cases b with
    | nil => rfl
    | cons y ys => simp [leChars] at h2
  | cons x xs ih =>
    intro b h1 h2
    cases b with
    | nil => simp [leChars] at h1
    | cons y ys =>
      rcases lt_trichotomy x y with hxy | rfl | hyx
      · simp [leChars, lt_asymm hxy, hxy] at h2
      · simp [leChars, lt_irrefl] at h1 h2
        rw [ih ys h1 h2]
      · simp [leChars, lt_asymm hyx, hyx] at h1

instance : IsTotal (String × JVal) keyLe :=
  ⟨fun a b => leChars_total a.1.data b.1.data⟩

instance : IsTrans (String × JVal) keyLe :=
  ⟨fun _ _ _ => leChars_trans _ _ _⟩

instance : IsAntisymm (String × JVal) keyLt :=
  ⟨fun _ _ h1 h2 =>
    absurd (String.ext (leChars_antisymm _ _ h1.1 h2.1)) h1.2⟩

/-- A key-sorted entry list with distinct keys is strictly key-sorted. -/
theorem sorted_keyLt (l : List (String × JVal))
    (hnd : (l.map Prod.fst).Nodup) (hs : l.Sorted keyLe) : l.Sorted keyLt := by
  have hnd' : l.Pairwise (fun a b => a.1 ≠ b.1) := List.pairwise_map.mp hnd
  exact hs.and hnd'

/-- C4: for any prompt and any two parameter dicts that are field-for-field
equal but constructed in different orders (permutations with distinct
keys), the derived cache key is identical, because the sorted-key
serialization is identical. -/
theorem cache_key_order_independent (T : String)
    (P₁ P₂ : List (String × JVal))
    (hperm : P₁.Perm P₂) (hnd : (P₁.map Prod.fst).Nodup) :
    get_cache_key T P₁ = get_cache_key T P₂ := by
  have hnd₂ : (P₂.map Prod.fst).Nodup := (hperm.map Prod.fst).nodup_iff.mp hnd
  have hq : sortKeys P₁ = sortKeys P₂ := by
    have hp : (sortKeys P₁).Perm (sortKeys P₂) :=
      (List.perm_insertionSort keyLe P₁).trans
        (hperm.trans (List.perm_insertionSort keyLe P₂).symm)
    have h₁ : (sortKeys P₁).Sorted keyLt :=
      sorted_keyLt _
        (((List.perm_insertionSort keyLe P₁).map Prod.fst).nodup_iff.mpr hnd)
        (List.sorted_insertionSort keyLe P₁)
    have h₂ : (sortKeys P₂).Sorted keyLt :=
      sorted_keyLt _
        (((List.perm_insertionSort keyLe P₂).map Prod.fst).nodup_iff.mpr hnd₂)
        (List.sorted_insertionSort keyLe P₂)
    exact List.eq_of_perm_of_sorted hp h₁ h₂
  unfold get_cache_key md5hex cache_data json_dumps_sorted
  rw [hq]

/-- Witness for C4: a two-entry dict and its reversal give equal keys. -/
theorem cache_key_order_witness :
    ([("a", JVal.jbool true), ("b", JVal.jbool false)] :
        List (String × JVal)).Perm
      [("b", JVal.jbool false), ("a", JVal.jbool true)] ∧
    get_cache_key "x" [("a", JVal.jbool true), ("b", JVal.jbool false)] =
      get_cache_key "x" [("b", JVal.jbool false), ("a", JVal.jbool true)] :=
  ⟨List.Perm.swap _ _ _,
   cache_key_order_independent "x" _ _ (List.Perm.swap _ _ _) (by decide)⟩

/-! ## Injectivity of the pre-hash encoding (C5) -/

/-- `Nat.digitChar` is injective below the base 10. -/
theorem digitChar_inj_lt10 :
    ∀ a < 10, ∀ b < 10, Nat.digitChar a = Nat.digitChar b → a = b := by decide

/-- `Nat.digitChar` of a digit below 10 is a digit character. -/
theorem digitChar_isDigit_lt10 : ∀ d < 10, (Nat.digitChar d).isDigit = true := by
  decide

/-- Every character of a rendered natural number is a digit. -/
theorem mem_fmtNat (n : Nat) : ∀ c ∈ (fmtNat n).data, c.isDigit = true := by
  intro c hc
  unfold fmtNat at hc
  split at hc
  · have : c = '0' := by simpa using hc
    subst this; rfl
  · have hc' : c ∈ ((Nat.digits 10 n).map Nat.digitChar).reverse := hc
    rw [List.mem_reverse, List.mem_map] at hc'
    obtain ⟨d, hd, rfl⟩ := hc'
    exact digitChar_isDigit_lt10 d (Nat.digits_lt_base (by norm_num) hd)

/-- Mapping `Nat.digitChar` over digit lists below 10 is injective. -/
theorem map_digitChar_inj :
    ∀ (l₁ l₂ : List Nat), (∀ d ∈ l₁, d < 10) → (∀ d ∈ l₂, d < 10) →
      l₁.map Nat.digitChar = l₂.map Nat.digitChar → l₁ = l₂ := by
  intro l₁
  induction l₁ with
  | nil =>
    intro l₂ _ _ h
    cases l₂ with
    | nil => rfl
    | cons e es => simp at h
  | cons d ds ih =>
    intro l₂ h₁ h₂ h
    cases l₂ with
    | nil => simp at h
    | cons e es =>
      simp only [List.map_cons, List.cons.injEq] at h
      have hd : d = e :=
        digitChar_inj_lt10 d (h₁ d (by simp)) e (h₂ e (by simp)) h.1
      rw [hd, ih es (fun x hx => h₁ x (by simp [hx]))
        (fun x hx => h₂ x (by simp [hx])) h.2]

/-- The decimal rendering of natural numbers is injective. -/
theorem fmtNat_inj : ∀ {m n : Nat}, fmtNat m = fmtNat n → m = n := by
  intro m n h
  have h' : (fmtNat m).data = (fmtNat n).data := congrArg String.data h
  unfold fmtNat at h'
  by_cases hm : m = 0 <;> by_cases hn : n = 0
  · rw [hm, hn]
  · rw [if_pos hm, if_neg hn] at h'
    have h'' : (Nat.digits 10 n).map Nat.digitChar = ['0'] := by
      have := congrArg List.reverse h'
      simpa using this.symm
    exfalso
    cases hd : Nat.digits 10 n with
    | nil => rw [hd] at h''; simp at h''
    | cons d ds =>
      rw [hd] at h''
      simp only [List.map_cons, List.cons.injEq] at h''
      have hds : ds = [] := by
        have := h''.2; rwa [List.map_eq_nil_iff] at this
      have hd10 : d < 10 :=
        Nat.digits_lt_base (by norm_num) (by rw [hd]; simp)
      have : d = 0 := digitChar_inj_lt10 d hd10 0 (by norm_num) h''.1
      subst this; subst hds
      have := Nat.ofDigits_digits 10 n
      rw [hd] at this
      simp [Nat.ofDigits] at this
      exact hn this.symm
  · rw [if_neg hm, if_pos hn] at h'
    have h'' : (Nat.digits 10 m).map Nat.digitChar = ['0'] := by
      have := congrArg List.reverse h'
      simpa using this
    exfalso
    cases hd : Nat.digits 10 m with
    | nil => rw [hd] at h''; simp at h''
    | cons d ds =>
      rw [hd] at h''
      simp only [List.map_cons, List.cons.injEq] at h''
      have hds : ds = [] := by
        have := h''.2; rwa [List.map_eq_nil_iff] at this
      have hd10 : d < 10 :=
        Nat.digits_lt_base (by norm_num) (by rw [hd]; simp)
      have : d = 0 := digitChar_inj_lt10 d hd10 0 (by norm_num) h''.1
      subst this; subst hds
      have := Nat.ofDigits_digits 10 m
      rw [hd] at this
      simp [Nat.ofDigits] at this
      exact hm this.symm
  · rw [if_neg hm, if_neg hn] at h'
    have h'' := congrArg List.reverse h'
    simp only [List.reverse_reverse] at h''
    have := map_digitChar_inj _ _
      (fun d hd => Nat.digits_lt_base (by norm_num) hd)
      (fun d hd => Nat.digits_lt_base (by norm_num) hd) h''
    have h3 := congrArg (Nat.ofDigits 10) this
    rwa [Nat.ofDigits_digits, Nat.ofDigits_digits] at h3

/-- Every character of a rendered integer is a digit or a minus sign. -/
theorem mem_fmtInt (i : Int) :
    ∀ c ∈ (fmtInt i).data, c.isDigit = true ∨ c = '-' := by
  intro c hc
  cases i with
  | ofNat n => exact Or.inl (mem_fmtNat n c hc)
  | negSucc n =>
    rw [show fmtInt (Int.negSucc n) = "-" ++ fmtNat (n + 1) from rfl,
      String.data_append] at hc
    rcases List.mem_append.mp hc with h | h
    · right; simpa using h
    · exact Or.inl (mem_fmtNat _ c h)

/-- The decimal rendering of integers is injective. -/
theorem fmtInt_inj : ∀ {i j : Int}, fmtInt i = fmtInt j → i = j := by
  intro i j h
  cases i with
  | ofNat m =>
    cases j with
    | ofNat n => rw [fmtNat_inj (show fmtNat m = fmtNat n from h)]
    | negSucc n =>
      exfalso
      have hd : (fmtNat m).data = '-' :: (fmtNat (n + 1)).data := by
        have := congrArg String.data h
        rwa [show fmtInt (Int.negSucc n) = "-" ++ fmtNat (n + 1) from rfl,
          String.data_append] at this
      have : '-' ∈ (fmtNat m).data := by rw [hd]; simp
      have := mem_fmtNat m '-' this
      simp at this
  | negSucc m =>
    cases j with
    | ofNat n =>
      exfalso
      have hd : (fmtNat n).data = '-' :: (fmtNat (m + 1)).data := by
        have := congrArg String.data h.symm
        rwa [show fmtInt (Int.negSucc m) = "-" ++ fmtNat (m + 1) from rfl,
          String.data_append] at this
      have : '-' ∈ (fmtNat n).data := by rw [hd]; simp
      have := mem_fmtNat n '-' this
      simp at this
    | negSucc n =>
      have hd := congrArg String.data h
      rw [show fmtInt (Int.negSucc m) = "-" ++ fmtNat (m + 1) from rfl,
        show fmtInt (Int.negSucc n) = "-" ++ fmtNat (n + 1) from rfl,
        String.data_append, String.data_append] at hd
      have : (fmtNat (m + 1)).data = (fmtNat (n + 1)).data := by
        simpa using hd
      have h5 := fmtNat_inj (String.ext this)
      rw [Nat.succ_injective h5]

/-- Every character of a rendered rational is a digit, `-` or `/`. -/
theorem mem_fmtRat (q : ℚ) :
    ∀ c ∈ (fmtRat q).data, c.isDigit = true ∨ c = '-' ∨ c = '/' := by
  intro c hc
  unfold fmtRat at hc
  rw [String.data_append, String.data_append] at hc
  rcases List.mem_append.mp hc with h | h
  · rcases List.mem_append.mp h with h' | h'
    · rcases mem_fmtInt _ c h' with h'' | h''
      · exact Or.inl h''
      · exact Or.inr (Or.inl h'')
    · right; right; simpa using h'
  · exact Or.inl (mem_fmtNat _ c h)

/-- Splitting an append at a separator character that occurs in neither
left part is unambiguous. -/
theorem append_sep_inj {P : Char → Prop} :
    ∀ (a b x y : List Char) (c : Char),
      a ++ c :: x = b ++ c :: y →
      (∀ ch ∈ a, P ch) → (∀ ch ∈ b, P ch) → ¬ P c →
      a = b ∧ x = y := by
  intro a
  induction a with
  | nil =>
    intro b x y c h _ hb hc
    cases b with
    | nil => simpa using h
    | cons u us =>
      injection h with h1 h2
      exact absurd (h1 ▸ hb u (by simp)) hc
  | cons v vs ih =>
    intro b x y c h ha hb hc
    cases b with
    | nil =>
      injection h with h1 h2
      exact absurd (h1 ▸ ha v (by simp)) hc
    | cons u us =>
      injection h with h1 h2
      subst h1
      obtain ⟨h3, h4⟩ := ih us x y c h2
        (fun ch hch => ha ch (by simp [hch]))
        (fun ch hch => hb ch (by simp [hch])) hc
      exact ⟨by rw [h3], h4⟩

/-- The num-slash-den rendering of rationals is injective. -/
theorem fmtRat_inj : ∀ {q q' : ℚ}, fmtRat q = fmtRat q' → q = q' := by
  intro q q' h
  have h' := congrArg String.data h
  unfold fmtRat at h'
  rw [String.data_append, String.data_append, String.data_append,
    String.data_append, List.append_assoc, List.append_assoc,
    show ("/" : String).data = ['/'] from rfl, List.singleton_append,
    List.singleton_append] at h'
  obtain ⟨h1, h2⟩ := append_sep_inj (P := fun c => c.isDigit = true ∨ c = '-')
    _ _ _ _ '/' h' (mem_fmtInt _) (mem_fmtInt _) (by decide)
  exact Rat.ext (fmtInt_inj (String.ext h1)) (fmtNat_inj (String.ext h2))

/-- Every character of a rendered boolean is a lowercase letter. -/
theorem mem_boolStr (b : Bool) :
    ∀ c ∈ (boolStr b).data, c.isLower = true := by
  cases b <;> decide

/-- The JSON rendering of booleans is injective. -/
theorem boolStr_inj : ∀ {b b' : Bool}, boolStr b = boolStr b' → b = b' := by
  intro b b'
  cases b <;> cases b' <;> decide

/-- The sorted-key reordering of the parameter dict puts the four entries
in lexicographic key order. -/
theorem sortKeys_cache_params (m : Int) (t p : ℚ) (d : Bool) :
    sortKeys (cache_params m t p d) =
      [("do_sample", JVal.jbool d), ("max_new_tokens", JVal.jint m),
       ("temperature", JVal.jnum t), ("top_p", JVal.jnum p)] := rfl

/-- Character-level shape of the pre-hash encoding: the prompt, a colon, an
opening brace, then the serialized dict. -/
theorem cache_data_shape (T : String) (m : Int) (t p : ℚ) (d : Bool) :
    (cache_data T (cache_params m t p d)).data =
      T.data ++ ':' :: '\x7b' :: payloadChars m t p d := by
  simp [cache_data, json_dumps_sorted, sortKeys_cache_params, joinEntries,
    dumpEntry, JVal.dumps, payloadChars, seg1, seg2, seg3,
    String.data_append, List.append_assoc]

/-- The serialized dict contains no opening brace after its first
character. -/
theorem payload_no_brace (m : Int) (t p : ℚ) (d : Bool) :
    '\x7b' ∉ payloadChars m t p d := by
  simp only [payloadChars, seg1, seg2, seg3, List.mem_append, not_or]
  repeat' apply And.intro
  all_goals
    first
      | decide
      | exact fun h => absurd (mem_boolStr _ _ h) (by decide)
      | exact fun h => absurd (mem_fmtInt _ _ h) (by decide)
      | exact fun h => absurd (mem_fmtRat _ _ h) (by decide)

/-- Splitting `prompt ++ ":" ++ "[brace]..."` is unambiguous when the part
after the brace contains no further opening brace. -/
theorem prompt_sep_inj :
    ∀ (T T' S S' : List Char),
      T ++ ':' :: '\x7b' :: S = T' ++ ':' :: '\x7b' :: S' →
      '\x7b' ∉ S → '\x7b' ∉ S' → T = T' ∧ S = S' := by
  intro T
  induction T with
  | nil =>
    intro T' S S' h hS hS'
    cases T' with
    | nil => simpa using h
    | cons u us =>
      injection h with h1 h2
      cases us with
      | nil =>
        injection h2 with h3 h4
        exact absurd h3 (by decide)
      | cons v vs =>
        injection h2 with h3 h4
        exfalso
        apply hS
        rw [h4]
        simp
  | cons w ws ih =>
    intro T' S S' h hS hS'
    cases T' with
    | nil =>
      injection h with h1 h2
      cases ws with
      | nil =>
        injection h2 with h3 h4
        exact absurd h3 (by decide)
      | cons v vs =>
        injection h2 with h3 h4
        exfalso
        apply hS'
        rw [← h4]
        simp
    | cons u us =>
      injection h with h1 h2
      subst h1
      obtain ⟨h3, h4⟩ := ih us S S' h2 hS hS'
      exact ⟨by rw [h3], h4⟩

/-- The `top_p` segment of the serialized dict determines `top_p`. -/
theorem seg3_inj {p p' : ℚ} (h : seg3 p = seg3 p') : p = p' := by
  have g : '"' :: 't' :: 'o' :: 'p' :: '_' :: 'p' :: '"' :: ':' :: ' ' ::
      ((fmtRat p).data ++ '\x7d' :: []) =
    '"' :: 't' :: 'o' :: 'p' :: '_' :: 'p' :: '"' :: ':' :: ' ' ::
      ((fmtRat p').data ++ '\x7d' :: []) := h
  simp only [List.cons.injEq, true_and] at g
  obtain ⟨h1, _⟩ := append_sep_inj
    (P := fun c => c.isDigit = true ∨ c = '-' ∨ c = '/')
    _ _ _ _ '\x7d' g (mem_fmtRat p) (mem_fmtRat p') (by decide)
  exact fmtRat_inj (String.ext h1)

/-- The `temperature` segment determines `temperature` and the rest. -/
theorem seg2_inj {t t' p p' : ℚ} (h : seg2 t p = seg2 t' p') :
    t = t' ∧ p = p' := by
  have g : '"' :: 't' :: 'e' :: 'm' :: 'p' :: 'e' :: 'r' :: 'a' :: 't' ::
      'u' :: 'r' :: 'e' :: '"' :: ':' :: ' ' ::
      ((fmtRat t).data ++ ',' :: ' ' :: seg3 p) =
    '"' :: 't' :: 'e' :: 'm' :: 'p' :: 'e' :: 'r' :: 'a' :: 't' ::
      'u' :: 'r' :: 'e' :: '"' :: ':' :: ' ' ::
      ((fmtRat t').data ++ ',' :: ' ' :: seg3 p') := h
  simp only [List.cons.injEq, true_and] at g
  obtain ⟨h1, h2⟩ := append_sep_inj
    (P := fun c => c.isDigit = true ∨ c = '-' ∨ c = '/')
    _ _ _ _ ',' g (mem_fmtRat t) (mem_fmtRat t') (by decide)
  injection h2 with _ h3
  exact ⟨fmtRat_inj (String.ext h1), seg3_inj h3⟩

/-- The `max_new_tokens` segment determines it and the rest. -/
theorem seg1_inj {m m' : Int} {t t' p p' : ℚ} (h : seg1 m t p = seg1 m' t' p') :
    m = m' ∧ t = t' ∧ p = p' := by
  have g : '"' :: 'm' :: 'a' :: 'x' :: '_' :: 'n' :: 'e' :: 'w' :: '_' ::
      't' :: 'o' :: 'k' :: 'e' :: 'n' :: 's' :: '"' :: ':' :: ' ' ::
      ((fmtInt m).data ++ ',' :: ' ' :: seg2 t p) =
    '"' :: 'm' :: 'a' :: 'x' :: '_' :: 'n' :: 'e' :: 'w' :: '_' ::
      't' :: 'o' :: 'k' :: 'e' :: 'n' :: 's' :: '"' :: ':' :: ' ' ::
      ((fmtInt m').data ++ ',' :: ' ' :: seg2 t' p') := h
  simp only [List.cons.injEq, true_and] at g
  obtain ⟨h1, h2⟩ := append_sep_inj
    (P := fun c => c.isDigit = true ∨ c = '-')
    _ _ _ _ ',' g (mem_fmtInt m) (mem_fmtInt m') (by decide)
  injection h2 with _ h3
  obtain ⟨h4, h5⟩ := seg2_inj h3
  exact ⟨fmtInt_inj (String.ext h1), h4, h5⟩

/-- The serialized dict determines all four parameter values. -/
theorem payloadChars_inj {m m' : Int} {t t' p p' : ℚ} {d d' : Bool}
    (h : payloadChars m t p d = payloadChars m' t' p' d') :
    m = m' ∧ t = t' ∧ p = p' ∧ d = d' := by
  have g : '"' :: 'd' :: 'o' :: '_' :: 's' :: 'a' :: 'm' :: 'p' :: 'l' ::
      'e' :: '"' :: ':' :: ' ' ::
      ((boolStr d).data ++ ',' :: ' ' :: seg1 m t p) =
    '"' :: 'd' :: 'o' :: '_' :: 's' :: 'a' :: 'm' :: 'p' :: 'l' ::
      'e' :: '"' :: ':' :: ' ' ::
      ((boolStr d').data ++ ',' :: ' ' :: seg1 m' t' p') := h
  simp only [List.cons.injEq, true_and] at g
  obtain ⟨h1, h2⟩ := append_sep_inj (P := fun c => c.isLower = true)
    _ _ _ _ ',' g (mem_boolStr d) (mem_boolStr d') (by decide)
  injection h2 with _ h3
  obtain ⟨h4, h5, h6⟩ := seg1_inj h3
  exact ⟨h4, h5, h6, boolStr_inj (String.ext h1)⟩

/-- C5: modelling the digest as collision-free, the pre-hash encoding
`prompt ++ ":" ++ serialized-parameters` is injective over the prompt and
the four generation parameters — two requests differing in the prompt or
in `max_new_tokens`, `temperature`, `top_p` or `do_sample` produce
different encodings. -/
theorem cache_data_encoding_injective (r r' : GenerationRequest)
    (h : cache_data r.prompt (cacheParamsOf r) =
         cache_data r'.prompt (cacheParamsOf r')) :
    r.prompt = r'.prompt ∧ r.max_new_tokens = r'.max_new_tokens ∧
    r.temperature = r'.temperature ∧ r.top_p = r'.top_p ∧
    r.do_sample = r'.do_sample := by
  have h' := congrArg String.data h
  rw [show cacheParamsOf r = cache_params r.max_new_tokens r.temperature
        r.top_p r.do_sample from rfl,
      show cacheParamsOf r' = cache_params r'.max_new_tokens r'.temperature
        r'.top_p r'.do_sample from rfl,
      cache_data_shape, cache_data_shape] at h'
  obtain ⟨hT, hS⟩ := prompt_sep_inj _ _ _ _ h'
    (payload_no_brace _ _ _ _) (payload_no_brace _ _ _ _)
  obtain ⟨hm, ht, hp, hd⟩ := payloadChars_inj hS
  exact ⟨String.ext hT, hm, ht, hp, hd⟩

/-- Witness for C5: two requests agreeing on the prompt and all four
parameters (differing only in `stream`) have equal encodings, and the
theorem recovers the field equalities from that. -/
theorem cache_data_injective_witness :
    sampleRequest.prompt =
      ({ sampleRequest with stream := true } : GenerationRequest).prompt ∧
    sampleRequest.max_new_tokens =
      ({ sampleRequest with stream := true } : GenerationRequest).max_new_tokens ∧
    sampleRequest.temperature =
      ({ sampleRequest with stream := true } : GenerationRequest).temperature ∧
    sampleRequest.top_p =
      ({ sampleRequest with stream := true } : GenerationRequest).top_p ∧
    sampleRequest.do_sample =
      ({ sampleRequest with stream := true } : GenerationRequest).do_sample :=
  cache_data_encoding_injective sampleRequest
    { sampleRequest with stream := true } rfl

end LLMApi
